import Mathlib

/-!
Verification of the GuessTheSongBot repository (`bot.py`).

The development shallowly embeds the pure logic of the bot:

* `SpotifyInputValidator` — the regex-based extraction of playlist /
  album / artist IDs from raw user input, and artist-name validation;
* `ErrorMessages` — the fixed catalog of user-facing error strings;
* `validate_spotify_response` — validation of (already parsed) Spotify
  API responses;
* the guess state machine of the specification (the `/guess` command in
  `bot.py` is an unimplemented stub, so that component is modelled from
  the specification).

Python strings are modelled as `String` / `List Char`; `re.match`
against the concrete patterns of the source is modelled by functions
computing exactly what those patterns match (anchored at the start
only, greedy groups).
-/

namespace GuessTheSong

/-- The character class `[a-zA-Z0-9]` of the source's regexes
(`PLAYLIST_URL_PATTERN`, `ALBUM_URL_PATTERN`, `ARTIST_URL_PATTERN`,
`ID_PATTERN`): ASCII letters and digits. -/
def isAlnumChar (c : Char) : Bool :=
  (97 ≤ c.toNat && c.toNat ≤ 122) ||
  (65 ≤ c.toNat && c.toNat ≤ 90) ||
  (48 ≤ c.toNat && c.toNat ≤ 57)

/-- The (ASCII) whitespace characters removed by Python's `str.strip()`:
space, tab, newline, carriage return, vertical tab, form feed. -/
def isPySpace (c : Char) : Bool :=
  c.toNat = 32 || c.toNat = 9 || c.toNat = 10 ||
  c.toNat = 13 || c.toNat = 11 || c.toNat = 12

/-- Python's `str.strip()` on a character list: drop leading whitespace,
then drop trailing whitespace. -/
def pyStrip (l : List Char) : List Char :=
  (((l.dropWhile isPySpace).reverse.dropWhile isPySpace)).reverse

/-- The fixed prefixes matched by
`https?://open\.spotify\.com/<kind>/` at the start of the input:
the (greedy, then backtracking) `https?` alternative means the input
must begin with either the `https` or the `http` form of the prefix.
Kept as an explicit concatenation so that membership facts about its
characters are provable for an arbitrary `kind`. -/
def urlPre (secure : Bool) (kind : String) : List Char :=
  (if secure then "https://open.spotify.com/" else "http://open.spotify.com/").toList
    ++ kind.toList ++ "/".toList

/-- Models `re.match` of `<pre>([a-zA-Z0-9]+)(\?.*)?` against `l`, returning
group 1.  Since `re.match` anchors only at the start and the trailing
`(\?.*)?` group is optional, the match succeeds exactly when `l` starts
with `pre` followed by at least one `[a-zA-Z0-9]` character, and the
greedy group 1 is the maximal alphanumeric run after the prefix. -/
def matchIdAfter (pre l : List Char) : Option (List Char) :=
  if l.take pre.length = pre then
    if (l.drop pre.length).takeWhile isAlnumChar = [] then none
    else some ((l.drop pre.length).takeWhile isAlnumChar)
  else none

/-- Models `re.match` of the kind-specific URL pattern
`https?://open\.spotify\.com/<kind>/([a-zA-Z0-9]+)(\?.*)?`
(source: `PLAYLIST_URL_PATTERN` / `ALBUM_URL_PATTERN` /
`ARTIST_URL_PATTERN`), returning group 1 on success. -/
def urlPatternMatch (kind : String) (l : List Char) : Option (List Char) :=
  match matchIdAfter (urlPre true kind) l with
  | some g => some g
  | none => matchIdAfter (urlPre false kind) l

/-- Models `re.match` of `ID_PATTERN = ^[a-zA-Z0-9]{22}$`, as a Bool.
Python's `$` also matches just before a single trailing newline, so the
pattern accepts exactly: 22 alphanumerics, or 22 alphanumerics followed
by one `'\n'`. -/
def idPatternMatch (l : List Char) : Bool :=
  (l.length == 22 && l.all isAlnumChar) ||
  (l.length == 23 && l.getLast? == some '\n' && (l.take 22).all isAlnumChar)

/-- Common body of `SpotifyInputValidator.extract_playlist_id`,
`extract_album_id` and `extract_artist_id` (the three are identical up
to the URL pattern's kind segment): reject empty input, strip
whitespace, try the kind's URL pattern, else try the direct-ID
pattern. -/
def extractId (kind : String) (input_str : String) : Option String :=
  if input_str.toList = [] then none
  else
    match urlPatternMatch kind (pyStrip input_str.toList) with
    | some g => some (String.mk g)
    | none =>
      if idPatternMatch (pyStrip input_str.toList) then
        some (String.mk (pyStrip input_str.toList))
      else none

/-- Source `SpotifyInputValidator.extract_playlist_id`. -/
def extract_playlist_id (input_str : String) : Option String :=
  extractId "playlist" input_str

/-- Source `SpotifyInputValidator.extract_album_id`. -/
def extract_album_id (input_str : String) : Option String :=
  extractId "album" input_str

/-- Source `SpotifyInputValidator.extract_artist_id`. -/
def extract_artist_id (input_str : String) : Option String :=
  extractId "artist" input_str

/-- Source `SpotifyInputValidator.validate_artist_name`: false for empty or
whitespace-only input, else requires the stripped length in [1, 100]. -/
def validate_artist_name (name : String) : Bool :=
  if name.toList = [] ∨ pyStrip name.toList = [] then false
  else
    decide (1 ≤ (pyStrip name.toList).length ∧ (pyStrip name.toList).length ≤ 100)

/-! ### Error-message catalog and Spotify-response validation -/

namespace ErrorMessages

/-- Source `ErrorMessages.INVALID_PLAYLIST`. -/
def INVALID_PLAYLIST : String :=
  "❌ **Invalid Playlist**\nThe playlist URL or ID you provided is invalid.\n\n**Valid formats:**\n• Playlist URL: `https://open.spotify.com/playlist/37i9dQZF1DXcBWIGoYBM5M`\n• Playlist ID: `37i9dQZF1DXcBWIGoYBM5M`\n\nPlease try again with a valid playlist."

/-- Source `ErrorMessages.INVALID_ALBUM`. -/
def INVALID_ALBUM : String :=
  "❌ **Invalid Album**\nThe album URL or ID you provided is invalid.\n\n**Valid formats:**\n• Album URL: `https://open.spotify.com/album/6DEjYFkNZh67HP7R9PSZvv`\n• Album ID: `6DEjYFkNZh67HP7R9PSZvv`\n\nPlease try again with a valid album."

/-- Source `ErrorMessages.INVALID_ARTIST`. -/
def INVALID_ARTIST : String :=
  "❌ **Invalid Artist**\nThe artist URL, ID, or name you provided is invalid.\n\n**Valid formats:**\n• Artist URL: `https://open.spotify.com/artist/0TnOYISbd1XYRBk9myaseg`\n• Artist ID: `0TnOYISbd1XYRBk9myaseg`\n• Artist name: `Pitbull`\n\nPlease try again with a valid artist."

/-- Source `ErrorMessages.PLAYLIST_NOT_FOUND`. -/
def PLAYLIST_NOT_FOUND : String :=
  "❌ **Playlist Not Found**\nThe playlist could not be found on Spotify. It may be:\n• Private or deleted\n• Restricted in your region\n• Temporarily unavailable\n\nPlease check the playlist and try again."

/-- Source `ErrorMessages.ALBUM_NOT_FOUND`. -/
def ALBUM_NOT_FOUND : String :=
  "❌ **Album Not Found**\nThe album could not be found on Spotify. It may be:\n• Removed or unavailable\n• Restricted in your region\n• Temporarily unavailable\n\nPlease check the album and try again."

/-- Source `ErrorMessages.ARTIST_NOT_FOUND`. -/
def ARTIST_NOT_FOUND : String :=
  "❌ **Artist Not Found**\nThe artist could not be found on Spotify.\nPlease check the spelling and try again."

/-- Source `ErrorMessages.EMPTY_PLAYLIST`. -/
def EMPTY_PLAYLIST : String :=
  "❌ **Empty Playlist**\nThe playlist you selected doesn't contain any tracks.\nPlease choose a playlist with at least one song."

/-- Source `ErrorMessages.EMPTY_ALBUM`. -/
def EMPTY_ALBUM : String :=
  "❌ **Empty Album**\nThe album you selected doesn't contain any tracks.\nPlease choose a different album."

/-- Source `ErrorMessages.SPOTIFY_API_ERROR`. -/
def SPOTIFY_API_ERROR : String :=
  "❌ **Spotify API Error**\nThere was an error communicating with Spotify.\nPlease try again in a moment."

/-- Source `ErrorMessages.OAUTH_REQUIRED`. -/
def OAUTH_REQUIRED : String :=
  "🔐 **Spotify Connection Required**\nYou need to connect your Spotify account first.\nUse `/connect` to link your account."

end ErrorMessages

/-- A track entry of a tracks listing.  `validate_spotify_response`
never inspects the entries, only the emptiness of the listing; the
fields record what a Spotify track item carries. -/
structure SpTrack where
  title : String
  artist : String
deriving DecidableEq

/-- An artist entry of an artist-search result. -/
structure SpArtist where
  name : String
deriving DecidableEq

/-- The `error` object of a Spotify error response.
`status` is optional: `response['error'].get('status', 0)` defaults the
missing key to `0`. -/
structure SpError where
  status : Option Int
deriving DecidableEq

/-- A parsed Spotify API response, carrying the only keys
`validate_spotify_response` reads: `error`, `tracks.items`,
`artists.items`.  A missing `tracks` key and a `tracks` object missing
`items` both read back as the empty listing
(`response.get('tracks', {}).get('items', [])`), so both are modelled
as the same `none`/`[]` default; likewise for `artists`. -/
structure SpResponse where
  error : Option SpError
  tracks : Option (List SpTrack)
  artists : Option (List SpArtist)
deriving DecidableEq

/-- Source `validate_spotify_response` from `bot.py`: `None` responses become
the generic API error; responses with an `error` key become the
kind-specific not-found message on status 404 (for the three known
resource types) and the generic API error otherwise; error-free
playlist/album responses with an empty `tracks.items` listing become
the kind-specific empty message; error-free artist responses carrying
an `artists` key with empty `items` become the artist not-found
message; everything else validates. -/
def validate_spotify_response (response : Option SpResponse)
    (resource_type : String) : Bool × Option String :=
  match response with
  | none => (false, some ErrorMessages.SPOTIFY_API_ERROR)
  | some r =>
    match r.error with
    | some e =>
      if e.status.getD 0 = 404 then
        if resource_type = "playlist" then
          (false, some ErrorMessages.PLAYLIST_NOT_FOUND)
        else if resource_type = "album" then
          (false, some ErrorMessages.ALBUM_NOT_FOUND)
        else if resource_type = "artist" then
          (false, some ErrorMessages.ARTIST_NOT_FOUND)
        else (false, some ErrorMessages.SPOTIFY_API_ERROR)
      else (false, some ErrorMessages.SPOTIFY_API_ERROR)
    | none =>
      if resource_type = "playlist" then
        if (r.tracks.getD []).isEmpty then
          (false, some ErrorMessages.EMPTY_PLAYLIST)
        else (true, none)
      else if resource_type = "album" then
        if (r.tracks.getD []).isEmpty then
          (false, some ErrorMessages.EMPTY_ALBUM)
        else (true, none)
      else if resource_type = "artist" then
        match r.artists with
        | some items =>
          if items.isEmpty then
            (false, some ErrorMessages.ARTIST_NOT_FOUND)
          else (true, none)
        | none => (true, none)
      else (true, none)

/-! ### Guess state machine (spec §4.3–§4.4)

The `/guess` command in `bot.py` only replies "To be implemented...";
the session store and guess evaluator live in revisions of the bot that
are not part of the sources, so they are modelled from the
specification. -/

/-- Modelled from the spec: the session states of §4.4 (`Active`,
`Won`, `Lost`); the code implementing the state machine is missing from
the sources. -/
inductive SessionState where
  | Active
  | Won
  | Lost
deriving DecidableEq

/-- Modelled from the spec: the `GameSession` record of §3; the code
implementing it is missing from the sources. -/
structure GameSession where
  answerTitle : String
  answerArtist : String
  maxGuesses : Nat
  guessesRemaining : Nat
  guessHistory : List String
  state : SessionState
deriving DecidableEq

/-- Modelled from the spec: the Session Store of §4.3, at most one
session per owner identity (owners as `Nat`). -/
def SessionStore : Type := Nat → Option GameSession

/-- Modelled from the spec: the `GuessOutcome` variants of §4.4. -/
inductive GuessOutcome where
  | Correct (answerTitle answerArtist : String) (guessesUsed : Nat)
  | WrongContinue (guessesRemaining : Nat) (guessHistory : List String)
  | Exhausted (answerTitle answerArtist : String) (guessesUsed : Nat)
  | NoActiveSession
deriving DecidableEq

/-- Modelled from the spec: guess normalization of §4.4 — lower-case
then trim (the two commute, since lowering fixes whitespace). -/
def normalizeGuess (s : String) : String :=
  String.mk (pyStrip (s.toList.map Char.toLower))

/-- Modelled from the spec: `submitGuess` of §4.4.  Correctness is
checked first; a correct guess wins and removes the session; an
incorrect guess decrements the budget, continuing when the decremented
budget is still positive and otherwise losing and removing the
session. -/
def submitGuess (store : SessionStore) (owner : Nat) (guessText : String) :
    GuessOutcome × SessionStore :=
  match store owner with
  | none => (GuessOutcome.NoActiveSession, store)
  | some sess =>
    if normalizeGuess guessText = normalizeGuess sess.answerTitle then
      (GuessOutcome.Correct sess.answerTitle sess.answerArtist
        (sess.maxGuesses - sess.guessesRemaining + 1),
       fun o => if o = owner then none else store o)
    else if 0 < sess.guessesRemaining - 1 then
      (GuessOutcome.WrongContinue (sess.guessesRemaining - 1)
        (sess.guessHistory ++ [guessText]),
       fun o =>
         if o = owner then
           some ⟨sess.answerTitle, sess.answerArtist, sess.maxGuesses,
             sess.guessesRemaining - 1, sess.guessHistory ++ [guessText],
             SessionState.Active⟩
         else store o)
    else
      (GuessOutcome.Exhausted sess.answerTitle sess.answerArtist sess.maxGuesses,
       fun o => if o = owner then none else store o)

/-! ### Helper lemmas about stripping and pattern matching -/

/-- Alphanumeric characters are not whitespace. -/
lemma isPySpace_eq_false_of_isAlnum {c : Char} (h : isAlnumChar c = true) :
    isPySpace c = false := by
  unfold isAlnumChar at h
  simp only [Bool.or_eq_true, Bool.and_eq_true, decide_eq_true_eq] at h
  cases hb : isPySpace c with
  | false => rfl
  | true =>
    exfalso
    unfold isPySpace at hb
    simp only [Bool.or_eq_true, decide_eq_true_eq] at hb
    omega

/-- Dropping a prefix of `p`-elements twice is the same as once. -/
lemma dropWhile_idem (p : Char → Bool) (l : List Char) :
    (l.dropWhile p).dropWhile p = l.dropWhile p := by
  induction l with
  | nil => rfl
  | cons a t ih =>
    by_cases h : p a
    · rw [List.dropWhile_cons_of_pos h, ih]
    · rw [List.dropWhile_cons_of_neg h, List.dropWhile_cons_of_neg h]

/-- The head of `l.dropWhile p` fails `p`. -/
lemma head?_dropWhile_false (p : Char → Bool) (l : List Char) {a : Char}
    (h : (l.dropWhile p).head? = some a) : p a = false := by
  have h2 := List.head?_dropWhile_not p l
  rw [h] at h2
  exact h2

/-- If the head fails `p`, `dropWhile` is the identity. -/
lemma dropWhile_eq_self_of_forall {p : Char → Bool} {l : List Char}
    (h : ∀ c ∈ l, p c = false) : l.dropWhile p = l := by
  cases l with
  | nil => rfl
  | cons a t =>
    exact List.dropWhile_cons_of_neg
      (by rw [h a (List.mem_cons_self a t)]; exact Bool.false_ne_true)

/-- If every element satisfies `p`, `takeWhile` is the identity. -/
lemma takeWhile_eq_self_of_forall {p : Char → Bool} {l : List Char}
    (h : ∀ c ∈ l, p c = true) : l.takeWhile p = l := by
  induction l with
  | nil => rfl
  | cons a t ih =>
    rw [List.takeWhile_cons_of_pos (h a (List.mem_cons_self a t)),
      ih fun c hc => h c (List.mem_cons_of_mem a hc)]

/-- Trailing-strip component of `pyStrip`. -/
def stripEnd (l : List Char) : List Char :=
  (l.reverse.dropWhile isPySpace).reverse

lemma pyStrip_eq_stripEnd (l : List Char) :
    pyStrip l = stripEnd (l.dropWhile isPySpace) := rfl

lemma stripEnd_idem (l : List Char) : stripEnd (stripEnd l) = stripEnd l := by
  unfold stripEnd
  rw [List.reverse_reverse, dropWhile_idem]

/-- Stripping the end of a list whose head is not whitespace keeps that
head (and in particular keeps the list nonempty). -/
lemma stripEnd_cons_of_false {a : Char} {t : List Char}
    (h : isPySpace a = false) : ∃ t2, stripEnd (a :: t) = a :: t2 := by
  unfold stripEnd
  rw [List.reverse_cons, List.dropWhile_append]
  by_cases he : (t.reverse.dropWhile isPySpace).isEmpty
  · refine ⟨[], ?_⟩
    rw [if_pos he, List.dropWhile_cons_of_neg (by rw [h]; exact Bool.false_ne_true)]
    rfl
  · refine ⟨(t.reverse.dropWhile isPySpace).reverse, ?_⟩
    rw [if_neg he, List.reverse_append]
    rfl

/-- After `pyStrip`, no whitespace is left at the front. -/
lemma dropWhile_pyStrip (l : List Char) :
    (pyStrip l).dropWhile isPySpace = pyStrip l := by
  rw [pyStrip_eq_stripEnd]
  cases hm : l.dropWhile isPySpace with
  | nil => rfl
  | cons a t =>
    have ha : isPySpace a = false := by
      apply head?_dropWhile_false isPySpace l
      rw [hm]; rfl
    obtain ⟨t2, ht2⟩ := stripEnd_cons_of_false (t := t) ha
    rw [ht2]
    exact List.dropWhile_cons_of_neg (by rw [ha]; exact Bool.false_ne_true)

/-- Python's `strip` is idempotent. -/
lemma pyStrip_idem (l : List Char) : pyStrip (pyStrip l) = pyStrip l := by
  rw [pyStrip_eq_stripEnd (pyStrip l), dropWhile_pyStrip, pyStrip_eq_stripEnd l,
    stripEnd_idem]

/-- After `pyStrip`, the last character is not whitespace. -/
lemma getLast?_pyStrip_false {l : List Char} {a : Char}
    (h : (pyStrip l).getLast? = some a) : isPySpace a = false := by
  unfold pyStrip at h
  rw [List.getLast?_reverse] at h
  exact head?_dropWhile_false isPySpace _ h

/-- Stripping a list with no whitespace anywhere is the identity. -/
lemma pyStrip_eq_self_of_forall {l : List Char}
    (h : ∀ c ∈ l, isPySpace c = false) : pyStrip l = l := by
  unfold pyStrip
  rw [dropWhile_eq_self_of_forall h,
    dropWhile_eq_self_of_forall (fun c hc => h c (List.mem_reverse.mp hc)),
    List.reverse_reverse]

lemma pyStrip_nil : pyStrip ([] : List Char) = [] := rfl

/-- The character `':'` occurs in every URL prefix (inside the scheme),
for any kind. -/
lemma colon_mem_urlPre (b : Bool) (kind : String) : ':' ∈ urlPre b kind := by
  unfold urlPre
  cases b
  · exact List.mem_append_left _ (List.mem_append_left _ (by decide))
  · exact List.mem_append_left _ (List.mem_append_left _ (by decide))

lemma urlPre_ne_nil (b : Bool) (kind : String) : urlPre b kind ≠ [] := by
  intro h
  exact absurd (h ▸ colon_mem_urlPre b kind) (List.not_mem_nil ':')

/-- A URL-pattern match never fires on an all-alphanumeric input (the
prefix contains `':'`). -/
lemma matchIdAfter_eq_none_of_alnum {pre l : List Char} (hc : ':' ∈ pre)
    (h : ∀ c ∈ l, isAlnumChar c = true) : matchIdAfter pre l = none := by
  unfold matchIdAfter
  rw [if_neg]
  intro htake
  have hmem : ':' ∈ l := List.take_subset pre.length l (by rw [htake]; exact hc)
  exact absurd (h ':' hmem) (by decide)

lemma urlPatternMatch_eq_none_of_alnum {kind : String} {l : List Char}
    (h : ∀ c ∈ l, isAlnumChar c = true) : urlPatternMatch kind l = none := by
  unfold urlPatternMatch
  rw [matchIdAfter_eq_none_of_alnum (colon_mem_urlPre true kind) h,
    matchIdAfter_eq_none_of_alnum (colon_mem_urlPre false kind) h]

/-- No URL pattern matches the empty input. -/
lemma matchIdAfter_nil {pre : List Char} (hp : pre ≠ []) :
    matchIdAfter pre [] = none := by
  unfold matchIdAfter
  rw [List.take_nil, if_neg fun h => hp h.symm]

lemma urlPatternMatch_nil (kind : String) : urlPatternMatch kind [] = none := by
  unfold urlPatternMatch
  rw [matchIdAfter_nil (urlPre_ne_nil true kind),
    matchIdAfter_nil (urlPre_ne_nil false kind)]

/-- A URL pattern applied to its own prefix followed by `rest` extracts
the maximal alphanumeric run of `rest`. -/
lemma matchIdAfter_append (pre rest : List Char) :
    matchIdAfter pre (pre ++ rest) =
      if rest.takeWhile isAlnumChar = [] then none
      else some (rest.takeWhile isAlnumChar) := by
  unfold matchIdAfter
  rw [List.take_left, if_pos rfl, List.drop_left]

lemma idPatternMatch_nil : idPatternMatch [] = false := rfl

/-- A 22-character all-alphanumeric list passes the ID pattern. -/
lemma idPatternMatch_of_22 {l : List Char} (h22 : l.length = 22)
    (hal : ∀ c ∈ l, isAlnumChar c = true) : idPatternMatch l = true := by
  unfold idPatternMatch
  have h1 : (l.length == 22) = true := by simp [h22]
  have h2 : l.all isAlnumChar = true := List.all_eq_true.mpr hal
  rw [h1, h2]
  rfl

/-- On stripped input, the trailing-newline case of Python's `$` cannot
fire, so the ID pattern is exactly the 22-alphanumeric shape. -/
lemma idPatternMatch_pyStrip (l : List Char) :
    idPatternMatch (pyStrip l) =
      ((pyStrip l).length == 22 && (pyStrip l).all isAlnumChar) := by
  unfold idPatternMatch
  have hlast : ((pyStrip l).getLast? == some '\n') = false := by
    cases hg : (pyStrip l).getLast? with
    | none => rfl
    | some a =>
      have ha := getLast?_pyStrip_false hg
      have : a ≠ '\n' := by
        intro h
        rw [h] at ha
        exact absurd ha (by decide)
      simp [this]
  rw [hlast]
  simp

/-- A successful URL-pattern match yields a nonempty all-alphanumeric
group. -/
lemma matchIdAfter_some {pre l g : List Char} (h : matchIdAfter pre l = some g) :
    g ≠ [] ∧ ∀ c ∈ g, isAlnumChar c = true := by
  unfold matchIdAfter at h
  by_cases hc : l.take pre.length = pre
  · rw [if_pos hc] at h
    by_cases hg : (l.drop pre.length).takeWhile isAlnumChar = []
    · rw [if_pos hg] at h
      exact absurd h (by simp)
    · rw [if_neg hg] at h
      obtain rfl := Option.some.inj h
      exact ⟨hg, fun c hc2 => List.mem_takeWhile_imp hc2⟩
  · rw [if_neg hc] at h
    exact absurd h (by simp)

lemma urlPatternMatch_some {kind : String} {l g : List Char}
    (h : urlPatternMatch kind l = some g) :
    g ≠ [] ∧ ∀ c ∈ g, isAlnumChar c = true := by
  unfold urlPatternMatch at h
  cases h1 : matchIdAfter (urlPre true kind) l with
  | some g1 =>
    rw [h1] at h
    exact Option.some.inj h ▸ matchIdAfter_some h1
  | none =>
    rw [h1] at h
    exact matchIdAfter_some h

/-- Whitespace does not occur in a URL prefix whose kind segment is
whitespace-free. -/
lemma forall_urlPre_not_space {kind : String}
    (hks : ∀ c ∈ kind.toList, isPySpace c = false) (b : Bool) :
    ∀ c ∈ urlPre b kind, isPySpace c = false := by
  have hsec : ∀ c ∈ "https://open.spotify.com/".toList, isPySpace c = false := by decide
  have hins : ∀ c ∈ "http://open.spotify.com/".toList, isPySpace c = false := by decide
  have hsl : ∀ c ∈ "/".toList, isPySpace c = false := by decide
  intro c hc
  unfold urlPre at hc
  rcases List.mem_append.mp hc with h1 | h2
  · rcases List.mem_append.mp h1 with h3 | h4
    · cases b
      · exact hins c h3
      · exact hsec c h3
    · exact hks c h4
  · exact hsl c h2

/-- A bare canonical ID (22 alphanumerics) is accepted by every
extractor and returned unchanged. -/
lemma extractId_bare {kind id : String} (h22 : id.toList.length = 22)
    (hal : ∀ c ∈ id.toList, isAlnumChar c = true) :
    extractId kind id = some id := by
  have hne : id.toList ≠ [] := by
    intro h
    rw [h] at h22
    exact absurd h22 (by decide)
  have hstrip : pyStrip id.toList = id.toList :=
    pyStrip_eq_self_of_forall fun c hc => isPySpace_eq_false_of_isAlnum (hal c hc)
  unfold extractId
  rw [if_neg hne, hstrip, urlPatternMatch_eq_none_of_alnum hal,
    if_pos (idPatternMatch_of_22 h22 hal)]
  rfl

/-- The `https` URL form built around a nonempty alphanumeric ID is
accepted by the kind's extractor and yields that ID. -/
lemma extractId_url {kind pre id : String} (hpre : pre.toList = urlPre true kind)
    (hal : ∀ c ∈ id.toList, isAlnumChar c = true) (hne : id.toList ≠ [])
    (hks : ∀ c ∈ kind.toList, isPySpace c = false) :
    extractId kind (pre ++ id) = some id := by
  have happ : (pre ++ id).toList = pre.toList ++ id.toList := String.data_append ..
  have hnil : (pre ++ id).toList ≠ [] := by
    rw [happ, hpre]
    intro h
    exact urlPre_ne_nil true kind (List.append_eq_nil.mp h).1
  have hnospace : ∀ c ∈ (pre ++ id).toList, isPySpace c = false := by
    intro c hc
    rw [happ, hpre] at hc
    rcases List.mem_append.mp hc with h1 | h2
    · exact forall_urlPre_not_space hks true c h1
    · exact isPySpace_eq_false_of_isAlnum (hal c h2)
  have hstrip := pyStrip_eq_self_of_forall hnospace
  have htw : id.toList.takeWhile isAlnumChar = id.toList :=
    takeWhile_eq_self_of_forall hal
  unfold extractId
  rw [if_neg hnil, hstrip, happ, hpre]
  unfold urlPatternMatch
  rw [matchIdAfter_append, htw, if_neg hne]
  rfl

/-- An extractor returns the same result on its input and on the
stripped input. -/
lemma extractId_strip (kind s : String) :
    extractId kind s = extractId kind (String.mk (pyStrip s.toList)) := by
  unfold extractId
  rw [show (String.mk (pyStrip s.toList)).toList = pyStrip s.toList from rfl]
  by_cases h0 : s.toList = []
  · have ht : pyStrip s.toList = [] := by rw [h0]; rfl
    rw [if_pos h0, ht, if_pos rfl]
  · rw [if_neg h0]
    by_cases ht : pyStrip s.toList = []
    · rw [ht, pyStrip_nil, urlPatternMatch_nil kind, if_pos rfl]
      rfl
    · rw [if_neg ht, pyStrip_idem]

/-- Whitespace-only (or empty) input is rejected by every extractor. -/
lemma extractId_blank (kind s : String) (h : pyStrip s.toList = []) :
    extractId kind s = none := by
  unfold extractId
  by_cases h0 : s.toList = []
  · rw [if_pos h0]
  · rw [if_neg h0, h, urlPatternMatch_nil kind]
    rfl

/-- Spec-side description (for the refinement claim C10) of the
canonical ID shape: exactly 22 alphanumeric characters. -/
def specIdShape (l : List Char) : Bool :=
  l.length == 22 && l.all isAlnumChar

/-! ### Claim theorems -/

/-- C1 (counterexample): the claim that a URL-form input is accepted
only when the embedded ID is exactly 22 alphanumeric characters is
false — `extract_playlist_id` accepts a playlist URL embedding the
3-character ID `abc` and returns that ID. -/
theorem C1_counterexample :
    extract_playlist_id "https://open.spotify.com/playlist/abc" = some "abc" ∧
      ("abc" : String).toList.length ≠ 22 := by
  constructor
  · decide
  · decide

/-- C1 (amended): for each kind in {playlist, album, artist}, a
URL-pattern match returns its embedded ID, which is only required to be
a nonempty alphanumeric run (no 22-character validation); when neither
the URL pattern nor the direct-ID pattern matches the stripped input,
the extractor fails with `none` (artist names are never accepted by the
extractors themselves). -/
theorem C1_amended_url_resolution (kind s : String)
    (hkind : kind ∈ (["playlist", "album", "artist"] : List String)) :
    (∀ g, urlPatternMatch kind (pyStrip s.toList) = some g →
      extractId kind s = some (String.mk g) ∧ g ≠ [] ∧
        ∀ c ∈ g, isAlnumChar c = true) ∧
    (urlPatternMatch kind (pyStrip s.toList) = none →
      idPatternMatch (pyStrip s.toList) = false → extractId kind s = none) := by
  clear hkind
  constructor
  · intro g hg
    have h0 : s.toList ≠ [] := by
      intro h0
      rw [h0, pyStrip_nil, urlPatternMatch_nil] at hg
      exact absurd hg (by simp)
    refine ⟨?_, (urlPatternMatch_some hg).1, (urlPatternMatch_some hg).2⟩
    unfold extractId
    rw [if_neg h0, hg]
  · intro hnone hid
    unfold extractId
    by_cases h0 : s.toList = []
    · rw [if_pos h0]
    · rw [if_neg h0, hnone, hid]
      rfl

/-- C1 (witness for the amended theorem): at the concrete kind
`playlist` and the URL embedding the short ID `abc`, the URL pattern
fires and the extractor returns `abc`. -/
theorem C1_amended_url_resolution_witness :
    extractId "playlist" "https://open.spotify.com/playlist/abc" =
        some (String.mk ['a', 'b', 'c']) ∧
      (['a', 'b', 'c'] : List Char) ≠ [] ∧
      ∀ c ∈ (['a', 'b', 'c'] : List Char), isAlnumChar c = true :=
  (C1_amended_url_resolution "playlist" "https://open.spotify.com/playlist/abc"
    (by decide)).1 ['a', 'b', 'c'] (by decide)

/-- C2: for every canonical ID (22 alphanumeric characters), resolving
the bare ID and resolving the `https` URL form built from it agree for
all three kinds, both returning the ID itself. -/
theorem C2_url_bare_roundtrip (id : String) (h22 : id.toList.length = 22)
    (hal : ∀ c ∈ id.toList, isAlnumChar c = true) :
    (extract_playlist_id id = some id ∧
      extract_playlist_id ("https://open.spotify.com/playlist/" ++ id) = some id) ∧
    (extract_album_id id = some id ∧
      extract_album_id ("https://open.spotify.com/album/" ++ id) = some id) ∧
    (extract_artist_id id = some id ∧
      extract_artist_id ("https://open.spotify.com/artist/" ++ id) = some id) := by
  have hne : id.toList ≠ [] := by
    intro h
    rw [h] at h22
    exact absurd h22 (by decide)
  exact ⟨⟨extractId_bare h22 hal, extractId_url (by decide) hal hne (by decide)⟩,
    ⟨extractId_bare h22 hal, extractId_url (by decide) hal hne (by decide)⟩,
    ⟨extractId_bare h22 hal, extractId_url (by decide) hal hne (by decide)⟩⟩

/-- C2 (witness): the round trip at the concrete canonical ID
`37i9dQZF1DXcBWIGoYBM5M`. -/
theorem C2_url_bare_roundtrip_witness :
    (extract_playlist_id "37i9dQZF1DXcBWIGoYBM5M" = some "37i9dQZF1DXcBWIGoYBM5M" ∧
      extract_playlist_id
          ("https://open.spotify.com/playlist/" ++ "37i9dQZF1DXcBWIGoYBM5M") =
        some "37i9dQZF1DXcBWIGoYBM5M") ∧
    (extract_album_id "37i9dQZF1DXcBWIGoYBM5M" = some "37i9dQZF1DXcBWIGoYBM5M" ∧
      extract_album_id
          ("https://open.spotify.com/album/" ++ "37i9dQZF1DXcBWIGoYBM5M") =
        some "37i9dQZF1DXcBWIGoYBM5M") ∧
    (extract_artist_id "37i9dQZF1DXcBWIGoYBM5M" = some "37i9dQZF1DXcBWIGoYBM5M" ∧
      extract_artist_id
          ("https://open.spotify.com/artist/" ++ "37i9dQZF1DXcBWIGoYBM5M") =
        some "37i9dQZF1DXcBWIGoYBM5M") :=
  C2_url_bare_roundtrip "37i9dQZF1DXcBWIGoYBM5M" (by decide) (by decide)

/-- C3 (counterexample): the claim that a listing consisting solely of
tracks with empty titles is reported as empty is false — the code only
checks whether the `items` list is empty, so a playlist whose single
track has an empty title validates successfully. -/
theorem C3_counterexample :
    validate_spotify_response
        (some (⟨none, some [⟨"", ""⟩], none⟩ : SpResponse)) "playlist" =
      (true, none) ∧
    validate_spotify_response
        (some (⟨none, some [⟨"", ""⟩], none⟩ : SpResponse)) "playlist" ≠
      (false, some ErrorMessages.EMPTY_PLAYLIST) := by
  constructor
  · decide
  · decide

/-- C3 (amended): for error-free playlist/album responses, the
empty-resource error is reported exactly when the `tracks.items`
listing has zero entries, regardless of the entries' titles. -/
theorem C3_amended_empty_iff_no_items (r : SpResponse) (rt : String)
    (herr : r.error = none) (hrt : rt = "playlist" ∨ rt = "album") :
    validate_spotify_response (some r) rt =
      (if (r.tracks.getD []).isEmpty then
        (false, some (if rt = "playlist" then ErrorMessages.EMPTY_PLAYLIST
          else ErrorMessages.EMPTY_ALBUM))
       else (true, none)) := by
  rcases hrt with h | h <;> subst h <;>
    by_cases hemp : (r.tracks.getD []).isEmpty <;>
      simp [validate_spotify_response, herr, hemp]

/-- C3 (witness for the amended theorem): a playlist response with an
empty `items` listing is reported with the empty-playlist message. -/
theorem C3_amended_empty_iff_no_items_witness :
    validate_spotify_response (some (⟨none, some [], none⟩ : SpResponse)) "playlist" =
      (false, some ErrorMessages.EMPTY_PLAYLIST) := by
  have h := C3_amended_empty_iff_no_items ⟨none, some [], none⟩ "playlist" rfl (Or.inl rfl)
  simpa using h

/-- C4 (counterexample): the claim that an inaccessible container
(e.g. HTTP 403) is reported with the kind-specific not-found message is
false — only status 404 is special-cased, and a 403 error on a playlist
yields the generic Spotify-API error message instead. -/
theorem C4_counterexample :
    validate_spotify_response
        (some (⟨some ⟨some 403⟩, none, none⟩ : SpResponse)) "playlist" =
      (false, some ErrorMessages.SPOTIFY_API_ERROR) ∧
    ErrorMessages.SPOTIFY_API_ERROR ≠ ErrorMessages.PLAYLIST_NOT_FOUND := by
  constructor
  · decide
  · decide

/-- C4 (amended): for playlist/album responses carrying an upstream
error, validation fails with the kind-specific not-found message
exactly when the error status is 404; every other status (including
403) yields the generic upstream-service error message. -/
theorem C4_amended_only_404 (r : SpResponse) (e : SpError) (rt : String)
    (he : r.error = some e) (hrt : rt = "playlist" ∨ rt = "album") :
    validate_spotify_response (some r) rt =
      (false, some (if e.status.getD 0 = 404 then
        (if rt = "playlist" then ErrorMessages.PLAYLIST_NOT_FOUND
          else ErrorMessages.ALBUM_NOT_FOUND)
        else ErrorMessages.SPOTIFY_API_ERROR)) := by
  rcases hrt with h | h <;> subst h <;>
    by_cases h404 : e.status.getD 0 = 404 <;>
      simp [validate_spotify_response, he, h404]

/-- C4 (witness for the amended theorem): a 404 error on a playlist
yields the playlist-not-found message. -/
theorem C4_amended_only_404_witness :
    validate_spotify_response
        (some (⟨some ⟨some 404⟩, none, none⟩ : SpResponse)) "playlist" =
      (false, some ErrorMessages.PLAYLIST_NOT_FOUND) := by
  have h := C4_amended_only_404 ⟨some ⟨some 404⟩, none, none⟩ ⟨some 404⟩ "playlist"
    rfl (Or.inl rfl)
  simpa using h

/-- C5: a `None` response (transport-level or malformed upstream
failure) always validates to the normalized Spotify-API error message,
for every resource type. -/
theorem C5_none_normalized (resource_type : String) :
    validate_spotify_response none resource_type =
      (false, some ErrorMessages.SPOTIFY_API_ERROR) := rfl

/-- C6: `validate_artist_name` returns true exactly when the trimmed
name is nonempty with length between 1 and 100. -/
theorem C6_artist_name_trim_bounds (s : String) :
    validate_artist_name s = true ↔
      pyStrip s.toList ≠ [] ∧ 1 ≤ (pyStrip s.toList).length ∧
        (pyStrip s.toList).length ≤ 100 := by
  unfold validate_artist_name
  by_cases hstrip : pyStrip s.toList = []
  · rw [if_pos (Or.inr hstrip)]
    constructor
    · intro h
      exact absurd h Bool.false_ne_true
    · rintro ⟨h1, -⟩
      exact absurd hstrip h1
  · have hnil : s.toList ≠ [] := by
      intro h
      rw [h] at hstrip
      exact hstrip pyStrip_nil
    rw [if_neg (by tauto)]
    constructor
    · intro h
      exact ⟨hstrip, of_decide_eq_true h⟩
    · rintro ⟨-, h2⟩
      exact decide_eq_true h2

/-- C7: every extractor returns the same result on its input and on
the whitespace-stripped input, and rejects empty or whitespace-only
input with `none`. -/
theorem C7_trim_then_reject_blank (s : String) :
    (extract_playlist_id s = extract_playlist_id (String.mk (pyStrip s.toList)) ∧
      extract_album_id s = extract_album_id (String.mk (pyStrip s.toList)) ∧
      extract_artist_id s = extract_artist_id (String.mk (pyStrip s.toList))) ∧
    (pyStrip s.toList = [] →
      extract_playlist_id s = none ∧ extract_album_id s = none ∧
        extract_artist_id s = none) :=
  ⟨⟨extractId_strip _ s, extractId_strip _ s, extractId_strip _ s⟩,
    fun h => ⟨extractId_blank _ s h, extractId_blank _ s h, extractId_blank _ s h⟩⟩

/-- C7 (witness): whitespace-only input is rejected by all three
extractors. -/
theorem C7_trim_then_reject_blank_witness :
    extract_playlist_id " \t " = none ∧ extract_album_id " \t " = none ∧
      extract_artist_id " \t " = none :=
  (C7_trim_then_reject_blank " \t ").2 (by decide)

/-- C8: on an `Active` session with at least one guess remaining, a
guess that normalizes (lower-case, trim) to the answer title yields the
`Correct` outcome — never `Exhausted` — and removes the session from
the store.  Modelled from the spec (§4.4); the `/guess` command in the
source is an unimplemented stub. -/
theorem C8_correct_guess_wins (store : SessionStore) (owner : Nat)
    (guessText : String) (sess : GameSession)
    (hfind : store owner = some sess)
    (hactive : sess.state = SessionState.Active)
    (hrem : 1 ≤ sess.guessesRemaining)
    (hmatch : normalizeGuess guessText = normalizeGuess sess.answerTitle) :
    (submitGuess store owner guessText).1 =
      GuessOutcome.Correct sess.answerTitle sess.answerArtist
        (sess.maxGuesses - sess.guessesRemaining + 1) ∧
    (submitGuess store owner guessText).2 owner = none := by
  clear hactive hrem
  unfold submitGuess
  rw [hfind]
  simp [hmatch]

/-- C8 (witness): a correctly guessed title (different case, extra
whitespace) on the last remaining guess of an active session wins and
removes the session. -/
theorem C8_correct_guess_wins_witness :
    (submitGuess
        (fun o => if o = 0 then
          some ⟨"Imagine", "John Lennon", 3, 1, ["a", "b"], SessionState.Active⟩
        else none) 0 " IMAGINE ").1 =
      GuessOutcome.Correct "Imagine" "John Lennon" 3 ∧
    (submitGuess
        (fun o => if o = 0 then
          some ⟨"Imagine", "John Lennon", 3, 1, ["a", "b"], SessionState.Active⟩
        else none) 0 " IMAGINE ").2 0 = none :=
  C8_correct_guess_wins _ 0 " IMAGINE "
    ⟨"Imagine", "John Lennon", 3, 1, ["a", "b"], SessionState.Active⟩
    rfl rfl (by decide) (by decide)

/-- C9: for every response and every resource-type string (recognized
or not), `validate_spotify_response` returns either success with no
message or failure with one of the fixed, nonempty catalog messages. -/
theorem C9_failure_messages_total (response : Option SpResponse)
    (resource_type : String) :
    validate_spotify_response response resource_type = (true, none) ∨
      ∃ m, validate_spotify_response response resource_type = (false, some m) ∧
        m ∈ [ErrorMessages.PLAYLIST_NOT_FOUND, ErrorMessages.ALBUM_NOT_FOUND,
          ErrorMessages.ARTIST_NOT_FOUND, ErrorMessages.EMPTY_PLAYLIST,
          ErrorMessages.EMPTY_ALBUM, ErrorMessages.SPOTIFY_API_ERROR] ∧
        m ≠ "" := by
  rcases response with _ | r
  · exact Or.inr ⟨_, rfl, by simp, by decide⟩
  rcases r with ⟨err, tracks, artists⟩
  rcases err with _ | e
  · simp only [validate_spotify_response]
    by_cases h1 : resource_type = "playlist"
    · rw [if_pos h1]
      by_cases h2 : (tracks.getD []).isEmpty
      · rw [if_pos h2]
        exact Or.inr ⟨_, rfl, by simp, by decide⟩
      · rw [if_neg h2]
        exact Or.inl rfl
    · rw [if_neg h1]
      by_cases h3 : resource_type = "album"
      · rw [if_pos h3]
        by_cases h2 : (tracks.getD []).isEmpty
        · rw [if_pos h2]
          exact Or.inr ⟨_, rfl, by simp, by decide⟩
        · rw [if_neg h2]
          exact Or.inl rfl
      · rw [if_neg h3]
        by_cases h4 : resource_type = "artist"
        · rw [if_pos h4]
          rcases artists with _ | items
          · exact Or.inl rfl
          · by_cases h5 : items.isEmpty
            · simp only [if_pos h5]
              exact Or.inr ⟨_, rfl, by simp, by decide⟩
            · simp only [if_neg h5]
              exact Or.inl trivial
        · rw [if_neg h4]
          exact Or.inl rfl
  · simp only [validate_spotify_response]
    by_cases h0 : e.status.getD 0 = 404
    · rw [if_pos h0]
      by_cases h1 : resource_type = "playlist"
      · rw [if_pos h1]
        exact Or.inr ⟨_, rfl, by simp, by decide⟩
      · rw [if_neg h1]
        by_cases h3 : resource_type = "album"
        · rw [if_pos h3]
          exact Or.inr ⟨_, rfl, by simp, by decide⟩
        · rw [if_neg h3]
          by_cases h4 : resource_type = "artist"
          · rw [if_pos h4]
            exact Or.inr ⟨_, rfl, by simp, by decide⟩
          · rw [if_neg h4]
            exact Or.inr ⟨_, rfl, by simp, by decide⟩
    · rw [if_neg h0]
      exact Or.inr ⟨_, rfl, by simp, by decide⟩

/-- C10: whenever none of the three kind-specific URL patterns matches
the stripped input, the three extractors agree, returning the stripped
input when it has the 22-character alphanumeric ID shape and `none`
otherwise. -/
theorem C10_extractors_agree (s : String)
    (hp : urlPatternMatch "playlist" (pyStrip s.toList) = none)
    (hb : urlPatternMatch "album" (pyStrip s.toList) = none)
    (hr : urlPatternMatch "artist" (pyStrip s.toList) = none) :
    extract_playlist_id s = extract_album_id s ∧
    extract_album_id s = extract_artist_id s ∧
    extract_playlist_id s =
      (if specIdShape (pyStrip s.toList) then some (String.mk (pyStrip s.toList))
       else none) := by
  have key : ∀ kind, urlPatternMatch kind (pyStrip s.toList) = none →
      extractId kind s =
        (if specIdShape (pyStrip s.toList) then some (String.mk (pyStrip s.toList))
         else none) := by
    intro kind hk
    unfold extractId
    by_cases h0 : s.toList = []
    · have ht : pyStrip s.toList = [] := by rw [h0]; rfl
      rw [if_pos h0, ht]
      rfl
    · rw [if_neg h0, hk,
        show idPatternMatch (pyStrip s.toList) = specIdShape (pyStrip s.toList) from by
          rw [idPatternMatch_pyStrip]; rfl]
  exact ⟨(key _ hp).trans (key _ hb).symm, (key _ hb).trans (key _ hr).symm, key _ hp⟩

/-- C10 (witness): on the non-URL input `hello` (not ID-shaped), all
three extractors return `none`. -/
theorem C10_extractors_agree_witness :
    extract_playlist_id "hello" = extract_album_id "hello" ∧
    extract_album_id "hello" = extract_artist_id "hello" ∧
    extract_playlist_id "hello" =
      (if specIdShape (pyStrip "hello".toList) then
        some (String.mk (pyStrip "hello".toList))
       else none) :=
  C10_extractors_agree "hello" (by decide) (by decide) (by decide)


end GuessTheSong
